import Mathlib

/-!
Verification of the matchmaking-and-realtime-chat core of the cine-synk
repository (src/pages/Chat.tsx, with the data model from the shared types
file).  The TypeScript component is shallowly embedded: React state becomes
an explicit `ClientState` record, Supabase calls become parameters carrying
the store's reply, and timestamps are milliseconds since epoch (`Int`,
matching `new Date(s).getTime()`).
-/

/-- Room kinds, from the `RoomType` enum in the types file:
`'public' | 'private' | 'match'`. -/
inductive RoomType
  | publicRoom
  | privateRoom
  | matchRoom
deriving DecidableEq, Repr

/-- `ChatRoom` from the types file (id, optional name, type). -/
structure ChatRoom where
  id : Nat
  name : Option String
  type : RoomType
deriving DecidableEq, Repr

/-- `Message` from the types file.  `created_at` is the timestamp in
milliseconds (the code compares `new Date(created_at).getTime()` values). -/
structure Message where
  id : Nat
  room_id : Nat
  user_id : Nat
  content : String
  created_at : Int
  is_anonymous : Bool
  fake_username : Option String
deriving DecidableEq, Repr

/-- The row `sendMessage` inserts into the `messages` table
(Chat.tsx: `supabase.from('messages').insert({...})`). -/
structure InsertRow where
  room_id : Nat
  user_id : Nat
  content : String
  is_anonymous : Bool
  fake_username : Option String
deriving DecidableEq, Repr

/-- Error taxonomy of the spec (§7). -/
inductive ChatError
  | TransientStoreError
  | Forbidden
  | InvalidArgument
  | NotFound
  | PreconditionFailed
deriving DecidableEq, Repr

/-- An opaque store-side error, as returned by a failed Supabase call. -/
structure StoreError where
  code : Nat
  message : String
deriving DecidableEq, Repr

/-- The component's React state (Chat.tsx, `useState` declarations). -/
structure ClientState where
  publicRooms : List ChatRoom
  privateRooms : List ChatRoom
  activeRoom : Option ChatRoom
  isSearchingMatch : Bool
  messages : List Message
  inputText : String
deriving DecidableEq, Repr

/-- `const ANIMALS = ['Panda', 'Tiger', 'Fox', 'Eagle', 'Shark', 'Owl',
'Wolf', 'Bear']` (Chat.tsx line 10). -/
def ANIMALS : List String :=
  ["Panda", "Tiger", "Fox", "Eagle", "Shark", "Owl", "Wolf", "Bear"]

/-- The fake display name built in `sendMessage`:
`` `Anonymous ${ANIMALS[Math.floor(Math.random() * ANIMALS.length)]}` ``.
The random index (uniform over `0..7`) is the `Fin 8` parameter. -/
def mkFakeName (k : Fin 8) : String :=
  "Anonymous " ++ ANIMALS.getD k.val ""

/-- JavaScript's `inputText.trim()`: strip leading and trailing whitespace.
Written over the string's character list so that it evaluates by kernel
reduction (`String.trim` itself is defined through `Substring` helpers
that do not reduce). -/
def strTrim (s : String) : String :=
  ⟨((s.data.dropWhile Char.isWhitespace).reverse.dropWhile
      Char.isWhitespace).reverse⟩

/-- Result of one `sendMessage` call: the new component state, the row
handed to the store (none when the guard short-circuits), and the error
the function throws to its caller — the TypeScript body contains no
`throw`, so this is always `none`. -/
structure SendResult where
  state : ClientState
  inserted : Option InsertRow
  thrownError : Option ChatError
deriving DecidableEq, Repr

/-- `sendMessage` (Chat.tsx lines 164–179).
`if (!inputText.trim() || !user || !activeRoom) return;` then builds the
row (`is_anonymous` iff the room's type is `'match'`, `fake_username` only
then), inserts it, and clears the draft only when the store reports no
error (`if (!error) setInputText('')`).  `storeReply` is the `error`
field of the insert's response; `k` models the random animal draw. -/
def sendMessage (st : ClientState) (user : Option Nat) (k : Fin 8)
    (storeReply : Option StoreError) : SendResult :=
  match user, st.activeRoom with
  | some u, some room =>
    if strTrim st.inputText = "" then
      { state := st, inserted := none, thrownError := none }
    else
      let isAnon : Bool := room.type = RoomType.matchRoom
      let fakeName : Option String := if isAnon then some (mkFakeName k) else none
      let row : InsertRow :=
        { room_id := room.id, user_id := u, content := st.inputText,
          is_anonymous := isAnon, fake_username := fakeName }
      match storeReply with
      | some _ => { state := st, inserted := some row, thrownError := none }
      | none => { state := { st with inputText := "" }, inserted := some row,
                  thrownError := none }
  | _, _ => { state := st, inserted := none, thrownError := none }

/-- The realtime-delivery handler's `setMessages` updater (Chat.tsx lines
147–150): `prev => { if (prev.find(m => m.id === newMsg.id)) return prev;
return [...prev, newMsg]; }`. -/
def deliverMessage (prev : List Message) (newMsg : Message) : List Message :=
  match prev.find? (fun m => m.id == newMsg.id) with
  | some _ => prev
  | none => prev ++ [newMsg]

/-- `isMessageGrouped` (Chat.tsx lines 182–188): index 0 is never grouped;
otherwise grouped iff same `user_id` as the previous message and the
signed timestamp difference is under `5 * 60 * 1000` ms.  The render loop
only calls it with in-range indices; out-of-range lookups yield `false`. -/
def isMessageGrouped (messages : List Message) (index : Nat) : Bool :=
  if index = 0 then false
  else
    match messages.get? index, messages.get? (index - 1) with
    | some current, some prev =>
      (current.user_id == prev.user_id) &&
        decide (current.created_at - prev.created_at < 5 * 60 * 1000)
    | _, _ => false

/-- The reveal gate predicate (Chat.tsx lines 317–329): the reveal button
is enabled iff `messages.length > 50`. -/
def revealUnlocked (count : Nat) : Bool := 50 < count

/-- RevealState of the spec (§3): derived, per Match room. -/
inductive RevealState
  | locked
  | unlockable
deriving DecidableEq, Repr

/-- The derived reveal state, a pure function of the room's message count,
computed with the code's gate predicate. -/
def revealState (count : Nat) : RevealState :=
  if revealUnlocked count then .unlockable else .locked

/-- Modelled from the spec: the `revealIdentity` operation itself is not in
src/ (the Chat.tsx button carries the gate predicate but no click
handler).  Spec §4.4: "calling it while `locked` is rejected
(`PreconditionFailed`)".  The gate predicate is the code's
`messages.length > 50`. -/
def revealIdentity (count : Nat) : Except ChatError Unit :=
  if revealUnlocked count then .ok () else .error .PreconditionFailed

/-- `joinMatchRoom` (Chat.tsx lines 108–118): stop searching, fetch the
room by id (`.single()`), and when found prepend it to `privateRooms`
unless already present and make it the active room.  `store` is the
`rooms` table. -/
def joinMatchRoom (st : ClientState) (roomId : Nat) (store : List ChatRoom) :
    ClientState :=
  let st1 := { st with isSearchingMatch := false }
  match store.find? (fun r => r.id == roomId) with
  | some data =>
    let priv :=
      match st1.privateRooms.find? (fun r => r.id == roomId) with
      | some _ => st1.privateRooms
      | none => data :: st1.privateRooms
    { st1 with privateRooms := priv, activeRoom := some data }
  | none => st1

/-- The reply of the `find_or_create_match` RPC: either the store answers
(with a room id when the caller was paired immediately, nothing when the
caller was queued) or the call fails. -/
inductive MatchRpcReply
  | ok (roomId : Option Nat)
  | err (e : StoreError)
deriving DecidableEq, Repr

/-- Result of one `handleFindMatch` call: the new component state, the
error logged by the `catch` block (`console.error("Match error", e)`),
and how many times the RPC was issued. -/
structure FindMatchResult where
  state : ClientState
  loggedError : Option StoreError
  rpcCalls : Nat
deriving DecidableEq, Repr

/-- `handleFindMatch` (Chat.tsx lines 87–106): `if (!user) return;` then
`setIsSearchingMatch(true)` and one `supabase.rpc('find_or_create_match')`
call.  A returned room id joins the room immediately; no room id leaves
the component searching (the queue listener takes over); an error is
logged and searching is turned off — no retry. -/
def handleFindMatch (st : ClientState) (user : Option Nat)
    (rpc : MatchRpcReply) (store : List ChatRoom) : FindMatchResult :=
  match user with
  | none => { state := st, loggedError := none, rpcCalls := 0 }
  | some _ =>
    let st1 := { st with isSearchingMatch := true }
    match rpc with
    | .err e =>
      { state := { st1 with isSearchingMatch := false },
        loggedError := some e, rpcCalls := 1 }
    | .ok (some roomId) =>
      { state := joinMatchRoom st1 roomId store, loggedError := none,
        rpcCalls := 1 }
    | .ok none =>
      { state := st1, loggedError := none, rpcCalls := 1 }

/-- A realtime INSERT event on `room_participants`. -/
structure ParticipantInsertEvent where
  room_id : Nat
  user_id : Nat
deriving DecidableEq, Repr

/-- The queue-listener effect (Chat.tsx lines 63–85): while
`isSearchingMatch && user` a channel subscribes to `room_participants`
INSERTs with filter `user_id=eq.${user.id}`; the handler joins the
event's room.  Events not matching the filter, or arriving when no
channel exists, leave the state unchanged. -/
def queueListenerStep (st : ClientState) (me : Nat)
    (ev : ParticipantInsertEvent) (store : List ChatRoom) : ClientState :=
  if st.isSearchingMatch then
    if ev.user_id == me then joinMatchRoom st ev.room_id store else st
  else st

/-- The order the History query requests: `.order('created_at',
{ ascending: true })` — by creation timestamp only. -/
def createdAtLe (a b : Message) : Prop := a.created_at ≤ b.created_at

instance : DecidableRel createdAtLe := fun a b =>
  inferInstanceAs (Decidable (a.created_at ≤ b.created_at))

instance : IsTotal Message createdAtLe :=
  ⟨fun a b => le_total a.created_at b.created_at⟩

instance : IsTrans Message createdAtLe :=
  ⟨fun _ _ _ hab hbc => le_trans hab hbc⟩

/-- `fetchMsgs` (Chat.tsx lines 126–134): select the room's messages
ordered by `created_at` ascending.  The store (`messages` table, in
arrival order) is a list; the single ORDER BY clause is a stable sort on
the timestamp alone, so equal timestamps keep their store order. -/
def fetchMsgs (store : List Message) (roomId : Nat) : List Message :=
  List.insertionSort createdAtLe (store.filter (fun m => m.room_id == roomId))

/-- The ordering the spec claims for History: by creation timestamp with
ties broken by message identifier (strictly increasing lexicographically).
Stated from the spec's words, to be compared with `fetchMsgs`. -/
def orderedByTimeThenId (l : List Message) : Prop :=
  l.Pairwise (fun a b =>
    a.created_at < b.created_at ∨ (a.created_at = b.created_at ∧ a.id < b.id))

instance (l : List Message) : Decidable (orderedByTimeThenId l) :=
  inferInstanceAs (Decidable (l.Pairwise _))

/-- The durable store as seen by the Message Stream. -/
structure Store where
  rooms : List ChatRoom
  members : List (Nat × Nat)    -- (room_id, user_id) rows of room_participants
  messages : List Message
deriving DecidableEq, Repr

/-- Modelled from the spec: the store-side authorization of an append.
The client (Chat.tsx `sendMessage`) only issues
`supabase.from('messages').insert(row)`; the membership check lives in
the store's row-level policy, which is not under src/.  Spec §4.3:
"append against a room the user is not a member of is rejected
(`Forbidden`)".  On success the message is appended to the room's log. -/
def storeAppend (s : Store) (row : InsertRow) (newId : Nat) (now : Int) :
    Except ChatError Store :=
  match s.members.find? (fun p => p.1 == row.room_id && p.2 == row.user_id) with
  | none => .error .Forbidden
  | some _ =>
    .ok { s with messages := s.messages ++
      [{ id := newId, room_id := row.room_id, user_id := row.user_id,
         content := row.content, created_at := now,
         is_anonymous := row.is_anonymous,
         fake_username := row.fake_username }] }

/-! ## Theorems -/

/-- C2: the identity-reveal action is locked exactly while the room's
message count is at most 50 and unlockable exactly when it exceeds 50; a
room with exactly 50 messages rejects `revealIdentity` and with 51 it
succeeds; the state never goes back from unlockable to locked as the
count only grows. -/
theorem reveal_gate_correct (n : Nat) :
    (revealState n = RevealState.locked ↔ n ≤ 50) ∧
    (revealState n = RevealState.unlockable ↔ 50 < n) ∧
    revealIdentity 50 = Except.error ChatError.PreconditionFailed ∧
    revealIdentity 51 = Except.ok () ∧
    (∀ m, n ≤ m → revealState n = RevealState.unlockable →
      revealState m = RevealState.unlockable) := by
  refine ⟨?_, ?_, by rfl, by rfl, ?_⟩
  · by_cases h : 50 < n
    · simp only [revealState, revealUnlocked, h, decide_True, if_true]
      constructor
      · intro hcontra
        exact absurd hcontra (by simp)
      · omega
    · simp [revealState, revealUnlocked, h]
      omega
  · by_cases h : 50 < n <;> simp [revealState, revealUnlocked, h]
  · intro m hm hn
    by_cases h : 50 < n
    · have hm50 : 50 < m := lt_of_lt_of_le h hm
      simp [revealState, revealUnlocked, hm50]
    · simp [revealState, revealUnlocked, h] at hn

/-- Witness for C2 at a concrete count. -/
theorem reveal_gate_correct_witness :
    (51 : Nat) ≤ 60 ∧ revealState 60 = RevealState.unlockable :=
  ⟨by decide, (reveal_gate_correct 51).2.2.2.2 60 (by decide) (by decide)⟩

/-- C3: the realtime handler's merge is idempotent per message id —
delivering a message whose id is already in the list leaves the list
unchanged, so a message present once after the History fetch still
appears exactly once after a duplicate Subscribe delivery. -/
theorem dedupe_exactly_once (prev : List Message) (newMsg : Message) :
    (newMsg.id ∈ prev.map Message.id → deliverMessage prev newMsg = prev) ∧
    ((prev.map Message.id).count newMsg.id = 1 →
      ((deliverMessage prev newMsg).map Message.id).count newMsg.id = 1) := by
  have hfix : newMsg.id ∈ prev.map Message.id →
      deliverMessage prev newMsg = prev := by
    intro hmem
    obtain ⟨m, hm, hid⟩ := List.mem_map.mp hmem
    unfold deliverMessage
    cases hf : prev.find? (fun m => m.id == newMsg.id) with
    | some _ => rfl
    | none =>
      rw [List.find?_eq_none] at hf
      exact absurd (by simpa using hid) (by simpa using hf m hm)
  refine ⟨hfix, fun hcount => ?_⟩
  have hmem : newMsg.id ∈ prev.map Message.id :=
    List.count_pos_iff.mp (by omega)
  rw [hfix hmem]
  exact hcount

/-- A concrete message used by the C3 witness. -/
def exMsgM : Message :=
  { id := 1, room_id := 7, user_id := 3, content := "hello",
    created_at := 1000, is_anonymous := false, fake_username := none }

/-- Witness for C3: redelivering the sole history message changes nothing
and the merged view holds exactly one copy. -/
theorem dedupe_exactly_once_witness :
    deliverMessage [exMsgM] exMsgM = [exMsgM] ∧
    ((deliverMessage [exMsgM] exMsgM).map Message.id).count exMsgM.id = 1 :=
  ⟨(dedupe_exactly_once [exMsgM] exMsgM).1 (by decide),
   (dedupe_exactly_once [exMsgM] exMsgM).2 (by decide)⟩

/-- Two same-timestamp messages, stored with the larger id first. -/
def exTieM1 : Message :=
  { id := 1, room_id := 7, user_id := 1, content := "a", created_at := 5,
    is_anonymous := false, fake_username := none }

/-- See `exTieM1`: same `created_at`, larger id, earlier in store order. -/
def exTieM2 : Message :=
  { id := 2, room_id := 7, user_id := 2, content := "b", created_at := 5,
    is_anonymous := false, fake_username := none }

/-- C6 counterexample: the History query orders by `created_at` alone, so
two messages with equal timestamps come back in store order — here id 2
before id 1 — and the result is not ordered by (timestamp, id). -/
theorem history_tiebreak_counterexample :
    fetchMsgs [exTieM2, exTieM1] 7 = [exTieM2, exTieM1] ∧
    ¬ orderedByTimeThenId (fetchMsgs [exTieM2, exTieM1] 7) := by
  constructor
  · decide
  · decide

/-- C6 amended: History returns exactly the room's messages sorted by
creation timestamp, oldest first; equal timestamps keep their store
order (no identifier tie-break). -/
theorem history_sorted_by_time (store : List Message) (roomId : Nat) :
    List.Sorted createdAtLe (fetchMsgs store roomId) ∧
    List.Perm (fetchMsgs store roomId)
      (store.filter (fun m => m.room_id == roomId)) ∧
    ∀ m ∈ fetchMsgs store roomId, m.room_id = roomId := by
  refine ⟨List.sorted_insertionSort createdAtLe _,
    List.perm_insertionSort createdAtLe _, ?_⟩
  intro m hm
  have h2 : m ∈ store.filter (fun m => m.room_id == roomId) :=
    (List.perm_insertionSort createdAtLe _).mem_iff.mp hm
  simpa using (List.mem_filter.mp h2).2

/-- The example thread of C4: user 1 at t, t+60s, t+400s, then user 2. -/
def exThread : List Message :=
  [{ id := 1, room_id := 9, user_id := 1, content := "a1", created_at := 0,
     is_anonymous := false, fake_username := none },
   { id := 2, room_id := 9, user_id := 1, content := "a2",
     created_at := 60000, is_anonymous := false, fake_username := none },
   { id := 3, room_id := 9, user_id := 1, content := "a3",
     created_at := 400000, is_anonymous := false, fake_username := none },
   { id := 4, room_id := 9, user_id := 2, content := "b1",
     created_at := 401000, is_anonymous := false, fake_username := none }]

/-- C4: a message at a valid index is grouped iff the index is positive,
its author equals the previous message's author, and the timestamp
difference is strictly under 5 minutes; index 0 is never grouped.  On the
example thread the grouping pattern is false, true, false, false. -/
theorem grouping_correct :
    (∀ (messages : List Message) (i : Nat) (hi : i < messages.length)
        (hp : i - 1 < messages.length),
      isMessageGrouped messages i = true ↔
        0 < i ∧
          (messages.get ⟨i, hi⟩).user_id = (messages.get ⟨i - 1, hp⟩).user_id ∧
          (messages.get ⟨i, hi⟩).created_at -
              (messages.get ⟨i - 1, hp⟩).created_at < 5 * 60 * 1000) ∧
    isMessageGrouped exThread 0 = false ∧
    isMessageGrouped exThread 1 = true ∧
    isMessageGrouped exThread 2 = false ∧
    isMessageGrouped exThread 3 = false := by
  refine ⟨?_, by decide, by decide, by decide, by decide⟩
  intro messages i hi hp
  unfold isMessageGrouped
  rcases Nat.eq_zero_or_pos i with h0 | h0
  · subst h0; simp
  · rw [if_neg (Nat.pos_iff_ne_zero.mp h0)]
    rw [List.get?_eq_get hi, List.get?_eq_get hp]
    simp [h0]

/-- Witness for C4 at index 1 of the example thread. -/
theorem grouping_correct_witness :
    isMessageGrouped exThread 1 = true ↔
      0 < 1 ∧
        (exThread.get ⟨1, by decide⟩).user_id =
          (exThread.get ⟨0, by decide⟩).user_id ∧
        (exThread.get ⟨1, by decide⟩).created_at -
            (exThread.get ⟨0, by decide⟩).created_at < 5 * 60 * 1000 :=
  grouping_correct.1 exThread 1 (by decide) (by decide)

/-- The fixed label set named by the spec: `"Anonymous "` prefixed to each
member of `ANIMALS`. -/
def FAKE_LABELS : List String :=
  ["Anonymous Panda", "Anonymous Tiger", "Anonymous Fox", "Anonymous Eagle",
   "Anonymous Shark", "Anonymous Owl", "Anonymous Wolf", "Anonymous Bear"]

/-- C5: every row `sendMessage` hands to the store is anonymous iff the
target room's kind is Match; the fake name is present iff the row is
anonymous, and then it is one of the eight fixed labels; for a Broadcast
(public) room the row is not anonymous and carries no fake name. -/
theorem send_anonymization (st : ClientState) (u : Nat) (k : Fin 8)
    (reply : Option StoreError) (room : ChatRoom) (row : InsertRow)
    (hroom : st.activeRoom = some room)
    (hrow : (sendMessage st (some u) k reply).inserted = some row) :
    (row.is_anonymous = true ↔ room.type = RoomType.matchRoom) ∧
    (row.fake_username.isSome = true ↔ row.is_anonymous = true) ∧
    (∀ s, row.fake_username = some s → s ∈ FAKE_LABELS) ∧
    (room.type = RoomType.publicRoom →
      row.is_anonymous = false ∧ row.fake_username = none) := by
  have hmk : ∀ j : Fin 8, mkFakeName j ∈ FAKE_LABELS := by
    intro j
    fin_cases j <;> decide
  unfold sendMessage at hrow
  rw [hroom] at hrow
  by_cases htrim : strTrim st.inputText = ""
  · simp [htrim] at hrow
  · by_cases hmatch : room.type = RoomType.matchRoom
    · cases reply <;>
        · simp only [if_neg htrim, hmatch, decide_True] at hrow
          obtain rfl := (Option.some_injective _ hrow).symm
          refine ⟨by simpa using hmatch, by simp, ?_, ?_⟩
          · intro s hs
            simp only [Option.some_inj] at hs
            simp at hs
            exact hs ▸ hmk k
          · intro hpub
            rw [hmatch] at hpub
            exact absurd hpub (by simp)
    · cases reply <;>
        · simp only [if_neg htrim] at hrow
          obtain rfl := (Option.some_injective _ hrow).symm
          constructor
          · simp [hmatch]
          constructor
          · simp [hmatch]
          constructor
          · intro s hs
            simp [hmatch] at hs
          · intro _
            simp [hmatch]

/-- A Match room used by the concrete witnesses. -/
def exMatchRoom : ChatRoom :=
  { id := 11, name := none, type := RoomType.matchRoom }

/-- Component state with a Match room active and a nonempty draft. -/
def exSendState : ClientState :=
  { publicRooms := [], privateRooms := [exMatchRoom],
    activeRoom := some exMatchRoom, isSearchingMatch := false,
    messages := [], inputText := "hello" }

/-- The row produced from `exSendState` with animal index 0. -/
def exSentRow : InsertRow :=
  { room_id := 11, user_id := 5, content := "hello", is_anonymous := true,
    fake_username := some "Anonymous Panda" }

/-- Witness for C5 on a concrete Match-room send. -/
theorem send_anonymization_witness :
    (exSentRow.is_anonymous = true ↔ exMatchRoom.type = RoomType.matchRoom) ∧
    (exSentRow.fake_username.isSome = true ↔ exSentRow.is_anonymous = true) ∧
    (∀ s, exSentRow.fake_username = some s → s ∈ FAKE_LABELS) ∧
    (exMatchRoom.type = RoomType.publicRoom →
      exSentRow.is_anonymous = false ∧ exSentRow.fake_username = none) :=
  send_anonymization exSendState 5 ⟨0, by decide⟩ none exMatchRoom exSentRow
    rfl (by decide)

/-- Component state whose draft is whitespace only. -/
def exBlankState : ClientState :=
  { publicRooms := [], privateRooms := [exMatchRoom],
    activeRoom := some exMatchRoom, isSearchingMatch := false,
    messages := [], inputText := "   " }

/-- C7 counterexample: with a whitespace-only draft, `sendMessage` issues
no insert but also produces no error value — contrary to the claim, the
caller observes no `InvalidArgument`; the call is a silent no-op. -/
theorem empty_send_counterexample :
    (sendMessage exBlankState (some 5) ⟨0, by decide⟩ none).inserted = none ∧
    (sendMessage exBlankState (some 5) ⟨0, by decide⟩ none).thrownError ≠
      some ChatError.InvalidArgument ∧
    (sendMessage exBlankState (some 5) ⟨0, by decide⟩ none).state =
      exBlankState := by
  refine ⟨by decide, by decide, by decide⟩

/-- C7 amended: an append whose trimmed content is empty creates no
message — no insert row is issued — but the rejection is silent: the
guard returns without any error value and leaves the state unchanged. -/
theorem empty_send_silent (st : ClientState) (user : Option Nat) (k : Fin 8)
    (reply : Option StoreError) (hempty : strTrim st.inputText = "") :
    sendMessage st user k reply =
      { state := st, inserted := none, thrownError := none } := by
  rcases user with _ | u <;> rcases hr : st.activeRoom with _ | room <;>
    simp [sendMessage, hr, hempty]

/-- Witness for the amended C7 on the whitespace-draft state. -/
theorem empty_send_silent_witness :
    sendMessage exBlankState (some 5) ⟨0, by decide⟩ none =
      { state := exBlankState, inserted := none, thrownError := none } :=
  empty_send_silent exBlankState (some 5) ⟨0, by decide⟩ none (by decide)

/-- C10: with the guard passing, `sendMessage` clears the draft iff the
store reports no error; a failed insert leaves the whole client state —
draft and local message list — unchanged, and a successful one changes
nothing but the draft. -/
theorem send_draft_clearing (st : ClientState) (u : Nat) (k : Fin 8)
    (room : ChatRoom) (hroom : st.activeRoom = some room)
    (hne : strTrim st.inputText ≠ "") :
    (∀ e : StoreError, (sendMessage st (some u) k (some e)).state = st) ∧
    (sendMessage st (some u) k none).state = { st with inputText := "" } ∧
    (sendMessage st (some u) k none).state.messages = st.messages ∧
    (∀ reply : Option StoreError,
      ((sendMessage st (some u) k reply).state.inputText = "" ↔
        reply = none)) := by
  have hinput : st.inputText ≠ "" := by
    intro h
    exact hne (by rw [h]; rfl)
  refine ⟨?_, ?_, ?_, ?_⟩
  · intro e
    simp [sendMessage, hroom, hne]
  · simp [sendMessage, hroom, hne]
  · simp [sendMessage, hroom, hne]
  · intro reply
    cases reply <;> simp [sendMessage, hroom, hne, hinput]

/-- Witness for C10 on the concrete nonempty-draft state. -/
theorem send_draft_clearing_witness :
    (sendMessage exSendState (some 5) ⟨0, by decide⟩
        (some { code := 500, message := "boom" })).state = exSendState ∧
    (sendMessage exSendState (some 5) ⟨0, by decide⟩ none).state =
      { exSendState with inputText := "" } ∧
    ((sendMessage exSendState (some 5) ⟨0, by decide⟩ none).state.inputText
        = "" ↔ (none : Option StoreError) = none) := by
  have h := send_draft_clearing exSendState 5 ⟨0, by decide⟩ exMatchRoom
    rfl (by decide)
  exact ⟨h.1 { code := 500, message := "boom" }, h.2.1, h.2.2.2 none⟩

/-- C8: an append by a user who is not a member of the target room is
rejected by the store with `Forbidden` and no message is created (the
rejection carries no updated store).  The membership check is the
spec-modelled store-side policy `storeAppend`. -/
theorem append_nonmember_forbidden (s : Store) (row : InsertRow)
    (newId : Nat) (now : Int)
    (h : ∀ p ∈ s.members, ¬(p.1 = row.room_id ∧ p.2 = row.user_id)) :
    storeAppend s row newId now = Except.error ChatError.Forbidden ∧
    ∀ s2, storeAppend s row newId now ≠ Except.ok s2 := by
  have hmain : storeAppend s row newId now =
      Except.error ChatError.Forbidden := by
    unfold storeAppend
    cases hf : s.members.find?
        (fun p => p.1 == row.room_id && p.2 == row.user_id) with
    | none => rfl
    | some p =>
      have hp := List.find?_some hf
      have hm := List.mem_of_find?_eq_some hf
      simp only [Bool.and_eq_true, beq_iff_eq] at hp
      exact absurd hp (h p hm)
  refine ⟨hmain, fun s2 => ?_⟩
  rw [hmain]
  intro hcontra
  exact Except.noConfusion hcontra

/-- A store whose only membership row is user 2 in room 11. -/
def exStoreC8 : Store :=
  { rooms := [exMatchRoom], members := [(11, 2)], messages := [] }

/-- An append attempt by user 3, who is not a member of room 11. -/
def exRowC8 : InsertRow :=
  { room_id := 11, user_id := 3, content := "yo", is_anonymous := true,
    fake_username := some "Anonymous Fox" }

/-- Witness for C8 on the concrete non-member append. -/
theorem append_nonmember_forbidden_witness :
    storeAppend exStoreC8 exRowC8 1 0 = Except.error ChatError.Forbidden :=
  (append_nonmember_forbidden exStoreC8 exRowC8 1 0 (by decide)).1

/-- C9: when the `find_or_create_match` call fails, `handleFindMatch`
hands the store's error value unmodified to its error channel (the catch
block's log), issues the RPC exactly once — no automatic retry — and
leaves the searching state; nothing else in the client state changes. -/
theorem match_error_surfaced (st : ClientState) (u : Nat) (e : StoreError)
    (store : List ChatRoom) :
    (handleFindMatch st (some u) (.err e) store).loggedError = some e ∧
    (handleFindMatch st (some u) (.err e) store).rpcCalls = 1 ∧
    (handleFindMatch st (some u) (.err e) store).state.isSearchingMatch
      = false ∧
    (handleFindMatch st (some u) (.err e) store).state =
      { st with isSearchingMatch := false } :=
  ⟨rfl, rfl, rfl, rfl⟩

/-- C1: the single `find_or_create_match` reply decides the outcome — a
room id joins that room at once and ends the search; no room id leaves
the caller searching with the rest of the state unchanged; the queue
listener reacts exactly to membership events carrying the caller's own
user_id, joining the delivered room and leaving the searching state,
while events for other users change nothing. -/
theorem request_match_flow (st : ClientState) (u : Nat)
    (store : List ChatRoom) (room : ChatRoom) (rid : Nat)
    (ev : ParticipantInsertEvent) :
    (store.find? (fun r => r.id == rid) = some room →
      (handleFindMatch st (some u) (.ok (some rid)) store).state.activeRoom
          = some room ∧
      (handleFindMatch st (some u) (.ok (some rid))
          store).state.isSearchingMatch = false ∧
      (handleFindMatch st (some u) (.ok (some rid)) store).rpcCalls = 1) ∧
    ((handleFindMatch st (some u) (.ok none) store).state.isSearchingMatch
        = true ∧
     (handleFindMatch st (some u) (.ok none) store).state.activeRoom
        = st.activeRoom ∧
     (handleFindMatch st (some u) (.ok none) store).rpcCalls = 1) ∧
    (st.isSearchingMatch = true → ev.user_id = u →
      store.find? (fun r => r.id == ev.room_id) = some room →
      (queueListenerStep st u ev store).activeRoom = some room ∧
      (queueListenerStep st u ev store).isSearchingMatch = false) ∧
    (ev.user_id ≠ u → queueListenerStep st u ev store = st) := by
  refine ⟨?_, ⟨rfl, rfl, rfl⟩, ?_, ?_⟩
  · intro hfind
    unfold handleFindMatch joinMatchRoom
    simp [hfind]
  · intro hsearch hev hfind
    unfold queueListenerStep joinMatchRoom
    simp [hsearch, hev, hfind]
  · intro hne
    unfold queueListenerStep
    by_cases hsearch : st.isSearchingMatch <;> simp [hsearch, hne]

/-- A client state in the middle of a search. -/
def exSearchState : ClientState :=
  { publicRooms := [], privateRooms := [], activeRoom := none,
    isSearchingMatch := true, messages := [], inputText := "" }

/-- Witness for C1: a membership event for the searching caller's own
user id makes the client join the delivered room and stop searching. -/
theorem request_match_flow_witness :
    (queueListenerStep exSearchState 5 { room_id := 11, user_id := 5 }
        [exMatchRoom]).activeRoom = some exMatchRoom ∧
    (queueListenerStep exSearchState 5 { room_id := 11, user_id := 5 }
        [exMatchRoom]).isSearchingMatch = false :=
  (request_match_flow exSearchState 5 [exMatchRoom] exMatchRoom 11
    { room_id := 11, user_id := 5 }).2.2.1 rfl rfl (by decide)
